import Mathlib

/-!
Verification of the memory-management and thread-coordination core of the
rubinius runtime: the shotgun object allocator (`object_memory-inline.h`)
and the VM thread primitives (`vm.cpp`).

Shallow embedding: C structs become Lean structures, pointer-bumping
becomes explicit cursor arithmetic, fallible/fatal paths become `Except`.
-/

namespace Shotgun

/-- An object value as seen by the shotgun allocator: the nil sentinel
(`Qnil`), a tagged fixnum immediate, or a heap reference carrying its
field slots.  `REFERENCE_P` holds exactly for the `reference` case. -/
inductive Obj where
  | nil : Obj
  | fixnum (n : Int) : Obj
  | reference (fields : List Obj) : Obj

/-- `REFERENCE_P(x)`: true exactly when `x` is a heap reference. -/
def Obj.reference_p : Obj → Bool
  | .reference _ => true
  | _ => false

/-- `NTH_FIELD(obj, i)` on a reference reads the i-th field slot.
Modelled from the spec: the class-model field accessor, reading slot `i`
(zero-based) of a heap object's field layout. -/
def nthField (fields : List Obj) (i : Nat) : Obj :=
  fields.getD i Obj.nil

/-- `FIXNUM_TO_INT(x)`: strips the fixnum tag.  Modelled from the spec:
the class-model fixnum decoding; on a fixnum immediate it yields the
stored integer. -/
def fixnumToInt : Obj → Int
  | .fixnum n => n
  | _ => 0

/-- GC zone tag of an object record (`GC_ZONE_SET`). -/
inductive GCZone where
  | young : GCZone
  | mature : GCZone
  | large : GCZone
  deriving Repr, DecidableEq

/-- `struct rubinius_object` header plus the inline field slots, as
initialized by `_om_inline_new_object`. -/
structure RubiniusObject where
  klass : Option Obj
  num_fields : Nat
  flags : Int
  flags2 : Int
  fields : List Obj
  zone : GCZone
  hash : Nat

/-- A heap space with a bump cursor and a limit (in bytes).
Modelled from the spec: a contiguous region with a bump cursor and a
limit (`heap.h` is not part of the sources). -/
structure Heap where
  cursor : Nat
  limit : Nat
  deriving Repr, DecidableEq

/-- `heap_enough_space_p(h, size)`: the region can absorb `size` more
bytes.  Modelled from the spec (the helper lives outside the sources). -/
def heap_enough_space_p (h : Heap) (size : Nat) : Bool :=
  h.cursor + size ≤ h.limit

/-- Bump-allocate `size` bytes from a region, returning the old cursor as
the object address.  Modelled from the spec. -/
def heap_allocate (h : Heap) (size : Nat) : Nat × Heap :=
  (h.cursor, { h with cursor := h.cursor + size })

/-- The two-space young generation of the baker collector. -/
structure BakerGC where
  current : Heap
  next : Heap
  deriving Repr, DecidableEq

/-- `object_memory`: the shared allocator state used by
`_om_inline_new_object`: young generation, the "collection requested"
bitset `collect_now`, and the auto-incremented identity counter
`last_object_id`. -/
structure ObjectMemory where
  gc : BakerGC
  collect_now : Nat
  last_object_id : Nat
  deriving Repr, DecidableEq

/-- `HEADER_SIZE`: header words of `struct rubinius_object`.  Modelled
from the spec: a fixed-layout header preceding the field slots. -/
def HEADER_SIZE : Nat := 4

/-- `REFSIZE`: bytes per object reference.  Modelled from the spec. -/
def REFSIZE : Nat := 8

/-- Where the allocator placed a record: in the current space, or
spilled directly into the next space. -/
inductive Placement where
  | currentSpace : Placement
  | spilledToNext : Placement
  deriving Repr, DecidableEq

/-- The fatal outcome of the `assert` in `_om_inline_new_object`: a
spilled request that does not fit even in the next space. -/
inductive Fatal where
  | spillTooLarge : Fatal
  deriving Repr, DecidableEq

/-- The `size` computed by `_om_inline_new_object`:
`(HEADER_SIZE + fields) * REFSIZE`. -/
def allocSize (fields : Nat) : Nat := (HEADER_SIZE + fields) * REFSIZE

/-- The flags value `_om_inline_new_object` stores in the header: when
`cls && REFERENCE_P(cls)`, `FIXNUM_TO_INT(NTH_FIELD(cls, 8))` (the
class's instance-flags slot, `CLASS_f_INSTANCE_FLAGS 8`), else 0. -/
def instanceFlags (cls : Option Obj) : Int :=
  match cls with
  | some (Obj.reference fs) => fixnumToInt (nthField fs 8)
  | _ => 0

/-- The fully initialized record built by the header-initialization part
of `_om_inline_new_object` (lines 18–37 of the source): class, field
count, flags from the class's instance-flags slot, `flags2 = 0`, every
field slot `Qnil`, zone Young, `hash` the current identity counter. -/
def om_init_header (cls : Option Obj) (fields : Nat) (id : Nat) : RubiniusObject :=
  { klass := cls
    num_fields := fields
    flags := instanceFlags cls
    flags2 := 0
    fields := List.replicate fields Obj.nil
    zone := GCZone.young
    hash := id }

/-- `_om_inline_new_object(om, cls, fields)` from
`src/shotgun/lib/object_memory-inline.h`:
computes `size = (HEADER_SIZE + fields) * REFSIZE`; if the current space
lacks room, spills into the next space (fatal `assert` if even the next
space lacks room, per the spec's reading of `baker_gc_allocate_spilled`)
and sets bit 0 of `collect_now`; otherwise bumps the current space; then
initializes the header and assigns `hash = last_object_id++`. -/
def _om_inline_new_object (om : ObjectMemory) (cls : Option Obj) (fields : Nat) :
    Except Fatal (RubiniusObject × ObjectMemory × Placement) :=
  if !heap_enough_space_p om.gc.current (allocSize fields) then
    if heap_enough_space_p om.gc.next (allocSize fields) then
      Except.ok (om_init_header cls fields om.last_object_id,
                 { om with gc := { om.gc with
                                   next := (heap_allocate om.gc.next (allocSize fields)).2 }
                           collect_now := om.collect_now ||| 1
                           last_object_id := om.last_object_id + 1 },
                 Placement.spilledToNext)
    else
      Except.error Fatal.spillTooLarge
  else
    Except.ok (om_init_header cls fields om.last_object_id,
               { om with gc := { om.gc with
                                 current := (heap_allocate om.gc.current (allocSize fields)).2 }
                         last_object_id := om.last_object_id + 1 },
               Placement.currentSpace)

/-- Young-generation collection as it affects the identity counter.
Modelled from the spec: after the copy walk, `current` and `next` swap
roles and the old `current` is reset to empty; the identity counter is
untouched. -/
def collect_young (om : ObjectMemory) : ObjectMemory :=
  { om with gc := { current := om.gc.next
                    next := { cursor := 0, limit := om.gc.current.limit } }
            collect_now := 0 }

/-- One step of a memory-instance lifetime: an allocation request or a
young-generation collection. -/
inductive MemAction where
  | alloc (cls : Option Obj) (fields : Nat) : MemAction
  | collect : MemAction

/-- Run a sequence of actions against a memory instance, collecting the
identity (`hash`) values of the successful allocations in order; a fatal
allocation aborts the run (the process aborts in the source). -/
def runActions (om : ObjectMemory) : List MemAction → List Nat
  | [] => []
  | MemAction.alloc cls f :: rest =>
    match _om_inline_new_object om cls f with
    | .ok (obj, om1, _) => obj.hash :: runActions om1 rest
    | .error _ => []
  | MemAction.collect :: rest => runActions (collect_young om) rest

end Shotgun

namespace Rubinius

/-! ### Wait record and the park/wakeup protocol (`src/vm/vm.cpp`) -/

/-- The mutator-visible state touched by `VM::wakeup`, `VM::clear_waiter`
and the three wait-registration calls.  Channels, wait objects and
custom-callback function pointers are modelled by opaque numeric ids;
`none` stands for the nil / null sentinel. -/
structure VMState where
  parked : Bool
  interrupt_with_signal : Bool
  waiting_object : Option Nat
  waiting_channel : Option Nat
  custom_wakeup : Option Nat
  custom_wakeup_data : Nat
  check_local_interrupts : Bool
  thread_sleeping : Bool
  deriving Repr, DecidableEq

/-- `VM::wait_on_channel(chan)`: marks the thread sleeping and records
the channel.  It touches no other wait-record field. -/
def wait_on_channel (s : VMState) (chan : Nat) : VMState :=
  { s with thread_sleeping := true, waiting_channel := some chan }

/-- `VM::wait_on_inflated_lock(wait)`: records the contended object.
It touches no other wait-record field. -/
def wait_on_inflated_lock (s : VMState) (wait : Nat) : VMState :=
  { s with waiting_object := some wait }

/-- `VM::wait_on_custom_function(func, data)`: records the callback and
its data.  It touches no other wait-record field. -/
def wait_on_custom_function (s : VMState) (func : Nat) (data : Nat) : VMState :=
  { s with custom_wakeup := some func, custom_wakeup_data := data }

/-- `VM::clear_waiter()`: resets the signal flag, the channel, the wait
object and the custom callback (it does not touch the parked token). -/
def clear_waiter (s : VMState) : VMState :=
  { s with interrupt_with_signal := false
           waiting_channel := none
           waiting_object := none
           custom_wakeup := none
           custom_wakeup_data := 0 }

/-- Observable events emitted, in program order, by one `VM::wakeup`
call: lock operations on the caller's per-thread `interrupt_lock_` and
the external calls each branch makes. -/
inductive Event where
  | acquireInterruptLock : Event
  | setCheckLocalInterrupts : Event
  | unparkThread : Event
  | pthreadKillSignal : Event
  | releaseInterruptLock : Event
  | releaseContention : Event
  | ihWakeup (obj : Nat) : Event
  | channelSend (chan : Nat) : Event
  | customCall (data : Nat) : Event
  deriving Repr, DecidableEq

/-- Return value, post-state and emitted event trace of one
`VM::wakeup` call. -/
structure WakeupResult where
  ret : Bool
  state : VMState
  trace : List Event
  deriving Repr, DecidableEq

/-- `VM::wakeup(state, call_frame)` from `src/vm/vm.cpp`: under the
`interrupt_lock_` guard, sets the check-local-interrupts flag, then
takes the first applicable branch: parked → unpark; pending signal →
`pthread_kill` then unlock then release contention; waiting on an
inflated lock → unlock then `ih->wakeup`; waiting channel → unlock,
release contention, send nil; custom callback → unlock, release
contention, invoke; else return false.  The `LockGuard` releases the
lock again when the scope exits.  Unparking clearing the parked token is
modelled from the spec (`park.hpp` is outside the sources): wakeup
delivery is single-shot, a resumed thread is no longer parked. -/
def wakeup (s : VMState) : WakeupResult :=
  let s1 := { s with check_local_interrupts := true }
  let pre : List Event := [Event.acquireInterruptLock, Event.setCheckLocalInterrupts]
  if s.parked then
    { ret := true
      state := { s1 with parked := false }
      trace := pre ++ [Event.unparkThread, Event.releaseInterruptLock] }
  else if s.interrupt_with_signal then
    { ret := true
      state := s1
      trace := pre ++ [Event.pthreadKillSignal, Event.releaseInterruptLock,
                       Event.releaseContention, Event.releaseInterruptLock] }
  else
    match s.waiting_object with
    | some w =>
      { ret := true
        state := s1
        trace := pre ++ [Event.releaseInterruptLock, Event.ihWakeup w,
                         Event.releaseInterruptLock] }
    | none =>
      match s.waiting_channel with
      | some c =>
        { ret := true
          state := s1
          trace := pre ++ [Event.releaseInterruptLock, Event.releaseContention,
                           Event.channelSend c, Event.releaseInterruptLock] }
      | none =>
        match s.custom_wakeup with
        | some _ =>
          { ret := true
            state := s1
            trace := pre ++ [Event.releaseInterruptLock, Event.releaseContention,
                             Event.customCall s.custom_wakeup_data,
                             Event.releaseInterruptLock] }
        | none =>
          { ret := false
            state := s1
            trace := pre ++ [Event.releaseInterruptLock] }

/-- Whether the per-thread `interrupt_lock_` is held after a prefix of
the event trace (acquire sets it, release clears it). -/
def interruptHeld (tr : List Event) : Bool :=
  tr.foldl
    (fun h e =>
      match e with
      | Event.acquireInterruptLock => true
      | Event.releaseInterruptLock => false
      | _ => h)
    false

/-! ### Thread-local slab fast path (`VM::new_object_typed_dirty`,
`VM::new_young_tuple_dirty`) -/

/-- A thread-private bump slab: cursor and limit in bytes.  The bump
mechanics are modelled from the spec (the `Slab` class is outside the
sources): bump the private cursor if room remains, else fail. -/
structure Slab where
  cursor : Nat
  limit : Nat
  deriving Repr, DecidableEq

/-- `Slab::allocate(bytes)`: bump if room remains, returning the old
cursor as the address; `none` on exhaustion. -/
def Slab.allocate (s : Slab) (bytes : Nat) : Option (Nat × Slab) :=
  if s.cursor + bytes ≤ s.limit then
    some (s.cursor, { s with cursor := s.cursor + bytes })
  else
    none

/-- The allocator state seen by the fast-path entry points: the thread's
private slab, the shared young generation it is refilled from, the
refill granule, and the large-object threshold. -/
structure AllocVM where
  slab : Slab
  young_cursor : Nat
  young_limit : Nat
  slab_size : Nat
  large_object_threshold : Nat
  deriving Repr, DecidableEq

/-- `ObjectMemory::refill_slab`: hand the thread a fresh slab carved
from the shared young generation.  Modelled from the spec (the method is
outside the sources): refill from the shared young generation, reporting
failure when it has no room. -/
def refill_slab (vm : AllocVM) : Bool × AllocVM :=
  if vm.young_cursor + vm.slab_size ≤ vm.young_limit then
    (true, { vm with slab := { cursor := vm.young_cursor
                               limit := vm.young_cursor + vm.slab_size }
                     young_cursor := vm.young_cursor + vm.slab_size })
  else
    (false, vm)

/-- Which allocator ultimately served a `new_object_typed_dirty`
request: the mature/enduring heap, the slab (first try), the slab after
one refill, or the full slow-path allocator. -/
inductive AllocRoute where
  | enduring : AllocRoute
  | slabFast (addr : Nat) : AllocRoute
  | slabAfterRefill (addr : Nat) : AllocRoute
  | slowPath : AllocRoute
  deriving Repr, DecidableEq

/-- `VM::new_object_typed_dirty(cls, size, type)` from `src/vm/vm.cpp`:
sizes above the large-object threshold go straight to the enduring
allocator; otherwise try the slab, on exhaustion call `refill_slab` and
retry exactly once, and if the object is still null fall back to the
slow-path allocator. -/
def new_object_typed_dirty (vm : AllocVM) (size : Nat) : AllocRoute × AllocVM :=
  if vm.large_object_threshold < size then
    (AllocRoute.enduring, vm)
  else
    match vm.slab.allocate size with
    | some (a, sl) => (AllocRoute.slabFast a, { vm with slab := sl })
    | none =>
      match refill_slab vm with
      | (true, vm1) =>
        match vm1.slab.allocate size with
        | some (a, sl) => (AllocRoute.slabAfterRefill a, { vm1 with slab := sl })
        | none => (AllocRoute.slowPath, vm1)
      | (false, vm1) => (AllocRoute.slowPath, vm1)

/-- `Tuple::fields_offset`: byte offset of the field slots in a tuple.
Modelled from the spec: a fixed-layout header precedes the payload. -/
def tuple_fields_offset : Nat := 16

/-- `sizeof(Object*)`: bytes per field slot. -/
def sizeof_object_ptr : Nat := 8

/-- The observable result of `new_young_tuple_dirty`: address and the
`full_size_` the code stores on the tuple. -/
structure TupleRec where
  addr : Nat
  full_size : Nat
  deriving Repr, DecidableEq

/-- `VM::new_young_tuple_dirty(fields)` from `src/vm/vm.cpp`: computes
`bytes = fields_offset + sizeof(Object*) * fields`; if that exceeds the
large-object threshold it returns null at once (no slab, no mature
fallback); otherwise slab-allocate with one refill retry, returning null
if both fail. -/
def new_young_tuple_dirty (vm : AllocVM) (fields : Nat) : Option TupleRec × AllocVM :=
  let bytes := tuple_fields_offset + sizeof_object_ptr * fields
  if vm.large_object_threshold < bytes then
    (none, vm)
  else
    match vm.slab.allocate bytes with
    | some (a, sl) => (some { addr := a, full_size := bytes }, { vm with slab := sl })
    | none =>
      match refill_slab vm with
      | (true, vm1) =>
        match vm1.slab.allocate bytes with
        | some (a, sl) => (some { addr := a, full_size := bytes }, { vm1 with slab := sl })
        | none => (none, vm1)
      | (false, vm1) => (none, vm1)

/-! ### Type checking (`type_assert` in `src/vm/vm.cpp`) -/

/-- Runtime type tags (`object_type`).  Only `FixnumType` is treated
specially by `type_assert`; other tags are opaque numbers. -/
abbrev ObjectType := Nat

/-- The `FixnumType` tag. -/
def FixnumType : ObjectType := 1

/-- An object as observed by `type_assert`: a fixnum-representable
immediate, another immediate (symbol, booleans, nil), or a heap
reference carrying its runtime type tag. -/
inductive RObject where
  | fixnum (n : Int) : RObject
  | symbol (id : Nat) : RObject
  | boolTrue : RObject
  | boolFalse : RObject
  | nilObj : RObject
  | reference (tid : ObjectType) : RObject
  deriving Repr, DecidableEq

/-- `Object::reference_p()`: heap references only. -/
def RObject.reference_p : RObject → Bool
  | .reference _ => true
  | _ => false

/-- `Object::fixnum_p()`: fixnum immediates only. -/
def RObject.fixnum_p : RObject → Bool
  | .fixnum _ => true
  | _ => false

/-- `Object::type_id()`: the runtime type tag.  For a heap reference it
is the header's tag; immediates carry their fixed tags. -/
def RObject.type_id : RObject → ObjectType
  | .reference t => t
  | .fixnum _ => FixnumType
  | .symbol _ => 2
  | .boolTrue => 3
  | .boolFalse => 4
  | .nilObj => 5

/-- `Object::to_string(state, true)`: a human-readable description of
the value.  Modelled from the spec (the method is outside the sources):
a description of the actual value. -/
def RObject.describe : RObject → String
  | .fixnum n => "Fixnum " ++ toString n
  | .symbol i => "Symbol " ++ toString i
  | .boolTrue => "true"
  | .boolFalse => "false"
  | .nilObj => "nil"
  | .reference t => "Object of type " ++ toString t

/-- The type-mismatch error raised through `Exception::type_error`: it
carries the expected tag, the offending object, and the message built
from the caller's reason and the object's description. -/
structure TypeError where
  expected : ObjectType
  object : RObject
  message : String
  deriving Repr, DecidableEq

/-- `type_assert(state, obj, type, reason)` from `src/vm/vm.cpp`:
raises a type error when the object is a reference whose tag differs
from the expected tag, or when the expected tag is `FixnumType` and the
object is not a fixnum; otherwise does nothing. -/
def type_assert (obj : RObject) (t : ObjectType) (reason : String) : Option TypeError :=
  if (obj.reference_p && obj.type_id != t) || (t == FixnumType && !obj.fixnum_p) then
    some { expected := t
           object := obj
           message := reason ++ ": " ++ obj.describe }
  else
    none

/-! ### Safepoint checkpoint (`VM::checkpoint` in `src/vm/vm.cpp`) -/

/-- The coordinator (`ThreadNexus`) state visible to `checkpoint`.
Modelled from the spec (`thread_nexus` is outside the sources): one
global stop-requested flag and one coordinator lock. -/
structure Nexus where
  stop : Bool
  locked : Bool
  deriving Repr, DecidableEq

/-- The collector state `checkpoint` acts on: the pending-collection
flags and a count of collections performed. -/
structure GCFlags where
  collect_young_now : Bool
  collect_mature_now : Bool
  collections_done : Nat
  deriving Repr, DecidableEq

/-- `ObjectMemory::collect_maybe`: perform the pending collection if one
was requested.  Modelled from the spec (the method is outside the
sources): the thread that acquires the coordinator lock performs the
pending collection. -/
def collect_maybe (g : GCFlags) : GCFlags :=
  if g.collect_young_now || g.collect_mature_now then
    { collect_young_now := false
      collect_mature_now := false
      collections_done := g.collections_done + 1 }
  else
    g

/-- `VM::checkpoint(state)` from `src/vm/vm.cpp`: if the stop flag is
clear, return immediately; otherwise `lock_or_yield` — `acquired` models
its outcome: this thread either takes the coordinator lock (then runs
`collect_maybe` and unlocks) or yields until the pause is over.
Unlocking clearing the stop flag is modelled from the spec: the
acquiring thread performs the collection, then releases, clearing the
stop flag. -/
def checkpoint (acquired : Bool) (n : Nexus) (g : GCFlags) : Nexus × GCFlags :=
  if n.stop then
    if acquired then
      let n1 : Nexus := { n with locked := true }
      let g1 := collect_maybe g
      ({ n1 with locked := false, stop := false }, g1)
    else
      (n, g)
  else
    (n, g)

end Rubinius

/-! ## Theorems -/

namespace Shotgun

/-- Any successful allocation returns exactly the record built by the
header-initialization block, stamped with the pre-call identity counter,
and bumps the identity counter by one. -/
theorem om_new_object_ok_inv (om : ObjectMemory) (cls : Option Obj) (fields : Nat)
    (obj : RubiniusObject) (om1 : ObjectMemory) (pl : Placement)
    (h : _om_inline_new_object om cls fields = Except.ok (obj, om1, pl)) :
    obj = om_init_header cls fields om.last_object_id ∧
    om1.last_object_id = om.last_object_id + 1 := by
  unfold _om_inline_new_object at h
  split at h
  · split at h
    · simp only [Except.ok.injEq, Prod.mk.injEq] at h
      obtain ⟨h1, h2, -⟩ := h
      subst h1
      subst h2
      exact ⟨rfl, rfl⟩
    · simp at h
  · simp only [Except.ok.injEq, Prod.mk.injEq] at h
    obtain ⟨h1, h2, -⟩ := h
    subst h1
    subst h2
    exact ⟨rfl, rfl⟩

/-- C1: for every class reference `cls` and field count `f ≥ 0`,
`allocate(cls, f)` returns a record with exactly `f` field slots, every
slot the nil sentinel, flags equal to the fixnum stored at field index 8
of `cls` when `cls` is a heap reference and zero otherwise (including
when `cls` is absent), second flags word zero, and zone tag Young. -/
theorem allocate_initializes_record (om : ObjectMemory) (cls : Option Obj) (fields : Nat)
    (obj : RubiniusObject) (om1 : ObjectMemory) (pl : Placement)
    (h : _om_inline_new_object om cls fields = Except.ok (obj, om1, pl)) :
    obj.num_fields = fields ∧
    obj.fields.length = fields ∧
    obj.fields = List.replicate fields Obj.nil ∧
    obj.flags2 = 0 ∧
    obj.zone = GCZone.young ∧
    (∀ fs v, cls = some (Obj.reference fs) → nthField fs 8 = Obj.fixnum v →
      obj.flags = v) ∧
    ((∀ fs, cls ≠ some (Obj.reference fs)) → obj.flags = 0) := by
  obtain ⟨hobj, -⟩ := om_new_object_ok_inv om cls fields obj om1 pl h
  subst hobj
  refine ⟨rfl, by simp [om_init_header], rfl, rfl, rfl, ?_, ?_⟩
  · intro fs v hcls hnth
    subst hcls
    simp [om_init_header, instanceFlags, hnth, fixnumToInt]
  · intro hnone
    match hc : cls with
    | none => rfl
    | some Obj.nil => rfl
    | some (Obj.fixnum n) => rfl
    | some (Obj.reference fs) => exact absurd rfl (hnone fs)

/-- C1 witness: a concrete allocation against a class whose field 8
holds fixnum 3, with 2 requested fields. -/
theorem allocate_initializes_record_witness :
    (om_init_header (some (Obj.reference (List.replicate 8 Obj.nil ++ [Obj.fixnum 3]))) 2 5).num_fields = 2 ∧
    (om_init_header (some (Obj.reference (List.replicate 8 Obj.nil ++ [Obj.fixnum 3]))) 2 5).flags = 3 ∧
    (om_init_header (some (Obj.reference (List.replicate 8 Obj.nil ++ [Obj.fixnum 3]))) 2 5).zone = GCZone.young := by
  have h := allocate_initializes_record
    { gc := { current := { cursor := 0, limit := 1000 }
              next := { cursor := 0, limit := 1000 } }
      collect_now := 0
      last_object_id := 5 }
    (some (Obj.reference (List.replicate 8 Obj.nil ++ [Obj.fixnum 3]))) 2
    (om_init_header (some (Obj.reference (List.replicate 8 Obj.nil ++ [Obj.fixnum 3]))) 2 5)
    _ _ rfl
  exact ⟨h.1, h.2.2.2.2.2.1 _ 3 rfl rfl, h.2.2.2.2.1⟩

/-- C2: a request that does not fit the current space but fits the next
space is placed directly into the next space, sets the
collection-requested bit, and succeeds; if it does not fit even in the
next space, the allocation is a fatal assertion failure. -/
theorem allocate_spillover (om : ObjectMemory) (cls : Option Obj) (fields : Nat)
    (hcur : heap_enough_space_p om.gc.current (allocSize fields) = false) :
    (heap_enough_space_p om.gc.next (allocSize fields) = true →
      ∃ obj om1,
        _om_inline_new_object om cls fields =
          Except.ok (obj, om1, Placement.spilledToNext) ∧
        om1.collect_now = om.collect_now ||| 1 ∧
        om1.gc.next.cursor = om.gc.next.cursor + allocSize fields ∧
        om1.gc.current = om.gc.current) ∧
    (heap_enough_space_p om.gc.next (allocSize fields) = false →
      _om_inline_new_object om cls fields = Except.error Fatal.spillTooLarge) := by
  constructor
  · intro hnext
    refine ⟨om_init_header cls fields om.last_object_id,
      { om with gc := { om.gc with
                        next := (heap_allocate om.gc.next (allocSize fields)).2 }
                collect_now := om.collect_now ||| 1
                last_object_id := om.last_object_id + 1 },
      ?_, rfl, rfl, rfl⟩
    unfold _om_inline_new_object
    simp [hcur, hnext]
  · intro hnext
    unfold _om_inline_new_object
    simp [hcur, hnext]

/-- C2 witness: a concrete memory whose current space is full and whose
next space has room, and one whose next space is also full. -/
theorem allocate_spillover_witness :
    (∃ obj om1,
      _om_inline_new_object
        { gc := { current := { cursor := 0, limit := 0 }
                  next := { cursor := 0, limit := 1000 } }
          collect_now := 0
          last_object_id := 0 } none 0 =
        Except.ok (obj, om1, Placement.spilledToNext) ∧
      om1.collect_now = 0 ||| 1 ∧
      om1.gc.next.cursor = 0 + allocSize 0 ∧
      om1.gc.current = { cursor := 0, limit := 0 }) ∧
    _om_inline_new_object
      { gc := { current := { cursor := 0, limit := 0 }
                next := { cursor := 0, limit := 0 } }
        collect_now := 0
        last_object_id := 0 } none 0 =
      Except.error Fatal.spillTooLarge :=
  ⟨(allocate_spillover _ none 0 (by decide)).1 (by decide),
   (allocate_spillover _ none 0 (by decide)).2 (by decide)⟩

/-- Every identity value produced by a run is at least the starting
value of the identity counter. -/
theorem runActions_lower_bound (acts : List MemAction) :
    ∀ om : ObjectMemory, ∀ x ∈ runActions om acts, om.last_object_id ≤ x := by
  induction acts with
  | nil =>
    intro om x hx
    simp [runActions] at hx
  | cons a rest ih =>
    intro om x hx
    cases a with
    | alloc cls f =>
      simp only [runActions] at hx
      cases hh : _om_inline_new_object om cls f with
      | error e =>
        rw [hh] at hx
        simp at hx
      | ok r =>
        obtain ⟨obj, om1, pl⟩ := r
        rw [hh] at hx
        simp only [List.mem_cons] at hx
        obtain ⟨hobj, hid⟩ := om_new_object_ok_inv om cls f obj om1 pl hh
        rcases hx with hx | hx
        · subst hx
          subst hobj
          exact Nat.le_refl _
        · have := ih om1 x hx
          omega
    | collect =>
      simp only [runActions] at hx
      exact ih (collect_young om) x hx

/-- C5: across any sequence of allocations and collections against one
memory instance, the identity values handed out are strictly increasing
in allocation order, hence never repeat. -/
theorem allocate_ids_strictly_increase (om : ObjectMemory) (acts : List MemAction) :
    List.Pairwise (· < ·) (runActions om acts) ∧
    List.Pairwise (· ≠ ·) (runActions om acts) := by
  have hlt : ∀ om1 : ObjectMemory, ∀ l : List MemAction,
      List.Pairwise (· < ·) (runActions om1 l) := by
    intro om1 l
    induction l generalizing om1 with
    | nil => simp [runActions]
    | cons a rest ih =>
      cases a with
      | alloc cls f =>
        simp only [runActions]
        cases hh : _om_inline_new_object om1 cls f with
        | error e => simp
        | ok r =>
          obtain ⟨obj, om2, pl⟩ := r
          refine List.Pairwise.cons ?_ (ih om2)
          intro y hy
          have hlb := runActions_lower_bound rest om2 y hy
          obtain ⟨hobj, hid⟩ := om_new_object_ok_inv om1 cls f obj om2 pl hh
          have hhash : obj.hash = om1.last_object_id := by rw [hobj]; rfl
          omega
      | collect =>
        simp only [runActions]
        exact ih (collect_young om1)
  exact ⟨hlt om acts, (hlt om acts).imp (fun h => Nat.ne_of_lt h)⟩

end Shotgun

namespace Rubinius

/-- C3 counterexample: registering a wait on an inflated lock while a
channel wait is still recorded leaves both kinds active — the
registration does not clear the other kinds. -/
theorem wait_on_inflated_lock_keeps_channel :
    (wait_on_inflated_lock
      { parked := false, interrupt_with_signal := false, waiting_object := none,
        waiting_channel := some 5, custom_wakeup := none, custom_wakeup_data := 0,
        check_local_interrupts := false, thread_sleeping := false } 7).waiting_object = some 7 ∧
    (wait_on_inflated_lock
      { parked := false, interrupt_with_signal := false, waiting_object := none,
        waiting_channel := some 5, custom_wakeup := none, custom_wakeup_data := 0,
        check_local_interrupts := false, thread_sleeping := false } 7).waiting_channel = some 5 := by
  decide

/-- C3 (amended): each wait-registration operation sets only its own
wait-record kind and leaves the other kinds unchanged; all kinds are
cleared together only by `clear_waiter`. -/
theorem wait_registration_sets_own_kind (s : VMState) (chan w func data : Nat) :
    ((wait_on_channel s chan).waiting_channel = some chan ∧
     (wait_on_channel s chan).waiting_object = s.waiting_object ∧
     (wait_on_channel s chan).custom_wakeup = s.custom_wakeup ∧
     (wait_on_channel s chan).parked = s.parked ∧
     (wait_on_channel s chan).interrupt_with_signal = s.interrupt_with_signal) ∧
    ((wait_on_inflated_lock s w).waiting_object = some w ∧
     (wait_on_inflated_lock s w).waiting_channel = s.waiting_channel ∧
     (wait_on_inflated_lock s w).custom_wakeup = s.custom_wakeup ∧
     (wait_on_inflated_lock s w).parked = s.parked ∧
     (wait_on_inflated_lock s w).interrupt_with_signal = s.interrupt_with_signal) ∧
    ((wait_on_custom_function s func data).custom_wakeup = some func ∧
     (wait_on_custom_function s func data).waiting_channel = s.waiting_channel ∧
     (wait_on_custom_function s func data).waiting_object = s.waiting_object ∧
     (wait_on_custom_function s func data).parked = s.parked ∧
     (wait_on_custom_function s func data).interrupt_with_signal = s.interrupt_with_signal) ∧
    ((clear_waiter s).waiting_channel = none ∧
     (clear_waiter s).waiting_object = none ∧
     (clear_waiter s).custom_wakeup = none ∧
     (clear_waiter s).interrupt_with_signal = false) := by
  refine ⟨⟨rfl, rfl, rfl, rfl, rfl⟩, ⟨rfl, rfl, rfl, rfl, rfl⟩,
    ⟨rfl, rfl, rfl, rfl, rfl⟩, rfl, rfl, rfl, rfl⟩

/-- C4 counterexample: `wakeup` on a mutator with no active wait record
does return failure, but it does not leave the state unchanged — it sets
the check-local-interrupts flag. -/
theorem wakeup_no_wait_mutates_flag :
    (wakeup
      { parked := false, interrupt_with_signal := false, waiting_object := none,
        waiting_channel := none, custom_wakeup := none, custom_wakeup_data := 0,
        check_local_interrupts := false, thread_sleeping := false }).ret = false ∧
    (wakeup
      { parked := false, interrupt_with_signal := false, waiting_object := none,
        waiting_channel := none, custom_wakeup := none, custom_wakeup_data := 0,
        check_local_interrupts := false, thread_sleeping := false }).state ≠
      { parked := false, interrupt_with_signal := false, waiting_object := none,
        waiting_channel := none, custom_wakeup := none, custom_wakeup_data := 0,
        check_local_interrupts := false, thread_sleeping := false } := by
  decide

/-- C4 (amended): `wakeup` on a mutator with no active wait record
(not parked, no pending signal interrupt, no wait object, no channel, no
custom callback) returns failure and leaves everything unchanged except
that it sets the check-local-interrupts flag; and after a successful
wakeup of a parked mutator with no other wait armed, a second wakeup
returns failure. -/
theorem wakeup_failure_and_idempotence (s : VMState)
    (hi : s.interrupt_with_signal = false) (hw : s.waiting_object = none)
    (hc : s.waiting_channel = none) (hf : s.custom_wakeup = none) :
    (s.parked = false →
      (wakeup s).ret = false ∧
      (wakeup s).state = { s with check_local_interrupts := true }) ∧
    (s.parked = true →
      (wakeup s).ret = true ∧
      (wakeup s).state.parked = false ∧
      (wakeup (wakeup s).state).ret = false) := by
  constructor
  · intro hp
    simp [wakeup, hp, hi, hw, hc, hf]
  · intro hp
    refine ⟨?_, ?_, ?_⟩
    · simp [wakeup, hp]
    · simp [wakeup, hp]
    · simp [wakeup, hp, hi, hw, hc, hf]

/-- C4 witness: both branches at concrete states — a no-wait mutator
and a parked mutator. -/
theorem wakeup_failure_and_idempotence_witness :
    ((wakeup
      { parked := false, interrupt_with_signal := false, waiting_object := none,
        waiting_channel := none, custom_wakeup := none, custom_wakeup_data := 0,
        check_local_interrupts := false, thread_sleeping := false }).ret = false ∧
     (wakeup
      { parked := false, interrupt_with_signal := false, waiting_object := none,
        waiting_channel := none, custom_wakeup := none, custom_wakeup_data := 0,
        check_local_interrupts := false, thread_sleeping := false }).state =
      { parked := false, interrupt_with_signal := false, waiting_object := none,
        waiting_channel := none, custom_wakeup := none, custom_wakeup_data := 0,
        check_local_interrupts := true, thread_sleeping := false }) ∧
    ((wakeup
      { parked := true, interrupt_with_signal := false, waiting_object := none,
        waiting_channel := none, custom_wakeup := none, custom_wakeup_data := 0,
        check_local_interrupts := false, thread_sleeping := false }).ret = true ∧
     (wakeup (wakeup
      { parked := true, interrupt_with_signal := false, waiting_object := none,
        waiting_channel := none, custom_wakeup := none, custom_wakeup_data := 0,
        check_local_interrupts := false, thread_sleeping := false }).state).ret = false) :=
  ⟨(wakeup_failure_and_idempotence _ rfl rfl rfl rfl).1 rfl,
   ((wakeup_failure_and_idempotence _ rfl rfl rfl rfl).2 rfl).1,
   ((wakeup_failure_and_idempotence _ rfl rfl rfl rfl).2 rfl).2.2⟩

/-- The event trace of `wakeup` on the blocked-on-contended-object
branch: acquire the interrupt lock, set the flag, release the lock, and
only then invoke the inflated-header wake path; the guard's final
release is a no-op. -/
theorem wakeup_trace_object_branch (s : VMState) (w : Nat)
    (hp : s.parked = false) (hi : s.interrupt_with_signal = false)
    (hw : s.waiting_object = some w) :
    (wakeup s).trace =
      [Event.acquireInterruptLock, Event.setCheckLocalInterrupts,
       Event.releaseInterruptLock, Event.ihWakeup w,
       Event.releaseInterruptLock] := by
  simp [wakeup, hp, hi, hw]

/-- C6: `new_object_typed_dirty` routes a request above the
large-object threshold straight to the enduring heap without touching
the slab; otherwise bumps the slab, on exhaustion refills once and
retries once, and falls back to the slow-path allocator when the retry
(or the refill) fails. -/
theorem new_object_typed_dirty_routing (vm : AllocVM) (size : Nat) :
    (vm.large_object_threshold < size →
      new_object_typed_dirty vm size = (AllocRoute.enduring, vm)) ∧
    (¬ vm.large_object_threshold < size →
      (∀ a sl, vm.slab.allocate size = some (a, sl) →
        new_object_typed_dirty vm size = (AllocRoute.slabFast a, { vm with slab := sl })) ∧
      (vm.slab.allocate size = none →
        (∀ vm1, refill_slab vm = (true, vm1) →
          (∀ a sl, vm1.slab.allocate size = some (a, sl) →
            new_object_typed_dirty vm size =
              (AllocRoute.slabAfterRefill a, { vm1 with slab := sl })) ∧
          (vm1.slab.allocate size = none →
            new_object_typed_dirty vm size = (AllocRoute.slowPath, vm1))) ∧
        (∀ vm1, refill_slab vm = (false, vm1) →
          new_object_typed_dirty vm size = (AllocRoute.slowPath, vm1)))) := by
  refine ⟨?_, ?_⟩
  · intro h
    simp [new_object_typed_dirty, h]
  · intro h
    refine ⟨?_, ?_⟩
    · intro a sl hs
      simp [new_object_typed_dirty, h, hs]
    · intro hs
      refine ⟨?_, ?_⟩
      · intro vm1 hr
        refine ⟨?_, ?_⟩
        · intro a sl hs1
          simp [new_object_typed_dirty, h, hs, hr, hs1]
        · intro hs1
          simp [new_object_typed_dirty, h, hs, hr, hs1]
      · intro vm1 hr
        simp [new_object_typed_dirty, h, hs, hr]

/-- C6 witness: the large-object bypass and the slab fast path at
concrete allocator states. -/
theorem new_object_typed_dirty_routing_witness :
    new_object_typed_dirty
      { slab := { cursor := 0, limit := 64 }, young_cursor := 0, young_limit := 256,
        slab_size := 64, large_object_threshold := 100 } 200 =
      (AllocRoute.enduring,
       { slab := { cursor := 0, limit := 64 }, young_cursor := 0, young_limit := 256,
         slab_size := 64, large_object_threshold := 100 }) ∧
    new_object_typed_dirty
      { slab := { cursor := 0, limit := 64 }, young_cursor := 0, young_limit := 256,
        slab_size := 64, large_object_threshold := 100 } 32 =
      (AllocRoute.slabFast 0,
       { slab := { cursor := 32, limit := 64 }, young_cursor := 0, young_limit := 256,
         slab_size := 64, large_object_threshold := 100 }) :=
  ⟨(new_object_typed_dirty_routing _ 200).1 (by decide),
   ((new_object_typed_dirty_routing _ 32).2 (by decide)).1 0 { cursor := 32, limit := 64 } (by decide)⟩

/-- C7: on the blocked-on-contended-object branch of `wakeup`, the
per-thread interrupt lock is released strictly before the inflated
lock's wake path runs, and the interrupt lock is never held at the point
the object lock's wake path is invoked. -/
theorem wakeup_releases_lock_before_object_wake (s : VMState) (w : Nat)
    (hp : s.parked = false) (hi : s.interrupt_with_signal = false)
    (hw : s.waiting_object = some w) :
    ∃ i j : Nat, i < j ∧
      (wakeup s).trace[i]? = some Event.releaseInterruptLock ∧
      (wakeup s).trace[j]? = some (Event.ihWakeup w) ∧
      ∀ k : Nat, (wakeup s).trace[k]? = some (Event.ihWakeup w) →
        interruptHeld ((wakeup s).trace.take k) = false := by
  have ht := wakeup_trace_object_branch s w hp hi hw
  rw [ht]
  refine ⟨2, 3, by omega, rfl, rfl, ?_⟩
  intro k hk
  match k with
  | 0 => simp at hk
  | 1 => simp at hk
  | 2 => simp at hk
  | 3 => rfl
  | 4 => simp at hk
  | (n + 5) => simp at hk

/-- C7 witness: the lock-order property at a concrete mutator blocked
on object 9. -/
theorem wakeup_releases_lock_before_object_wake_witness :
    ∃ i j : Nat, i < j ∧
      (wakeup
        { parked := false, interrupt_with_signal := false, waiting_object := some 9,
          waiting_channel := none, custom_wakeup := none, custom_wakeup_data := 0,
          check_local_interrupts := false, thread_sleeping := false }).trace[i]? =
        some Event.releaseInterruptLock ∧
      (wakeup
        { parked := false, interrupt_with_signal := false, waiting_object := some 9,
          waiting_channel := none, custom_wakeup := none, custom_wakeup_data := 0,
          check_local_interrupts := false, thread_sleeping := false }).trace[j]? =
        some (Event.ihWakeup 9) ∧
      ∀ k : Nat,
        (wakeup
          { parked := false, interrupt_with_signal := false, waiting_object := some 9,
            waiting_channel := none, custom_wakeup := none, custom_wakeup_data := 0,
            check_local_interrupts := false, thread_sleeping := false }).trace[k]? =
          some (Event.ihWakeup 9) →
        interruptHeld
          ((wakeup
            { parked := false, interrupt_with_signal := false, waiting_object := some 9,
              waiting_channel := none, custom_wakeup := none, custom_wakeup_data := 0,
              check_local_interrupts := false, thread_sleeping := false }).trace.take k) = false :=
  wakeup_releases_lock_before_object_wake _ 9 rfl rfl rfl

/-- C8: `checkpoint` is a no-op when the stop flag is clear; when it is
set and this thread acquires the coordinator lock, the pending
collection is performed and the lock is released with the stop flag
cleared. -/
theorem checkpoint_spec (acq : Bool) (n : Nexus) (g : GCFlags) :
    (n.stop = false → checkpoint acq n g = (n, g)) ∧
    (n.stop = true → acq = true →
      checkpoint acq n g = ({ stop := false, locked := false }, collect_maybe g)) := by
  constructor
  · intro h
    simp [checkpoint, h]
  · intro h ha
    subst ha
    simp [checkpoint, h]

/-- C8 witness: both branches at concrete coordinator states. -/
theorem checkpoint_spec_witness :
    checkpoint true { stop := false, locked := false }
      { collect_young_now := true, collect_mature_now := false, collections_done := 0 } =
      ({ stop := false, locked := false },
       { collect_young_now := true, collect_mature_now := false, collections_done := 0 }) ∧
    checkpoint true { stop := true, locked := false }
      { collect_young_now := true, collect_mature_now := false, collections_done := 0 } =
      ({ stop := false, locked := false },
       collect_maybe
         { collect_young_now := true, collect_mature_now := false, collections_done := 0 }) :=
  ⟨(checkpoint_spec true _ _).1 rfl, (checkpoint_spec true _ _).2 rfl rfl⟩

/-- The condition tested by `type_assert`, as a proposition. -/
theorem type_assert_cond_iff (obj : RObject) (t : ObjectType) :
    ((obj.reference_p && obj.type_id != t) || (t == FixnumType && !obj.fixnum_p)) = true ↔
      (obj.reference_p = true ∧ obj.type_id ≠ t) ∨
      (t = FixnumType ∧ obj.fixnum_p = false) := by
  simp [Bool.or_eq_true, Bool.and_eq_true, bne_iff_ne, beq_iff_eq, Bool.not_eq_true']

/-- C9: `type_assert` raises a type-mismatch error exactly when the
object is a heap reference whose runtime tag differs from the expected
tag, or the expected tag is `FixnumType` and the object is not a fixnum
immediate; the raised error carries the expected tag, the object, and a
message built from the reason and the object's description; otherwise it
raises nothing. -/
theorem type_assert_spec (obj : RObject) (t : ObjectType) (reason : String) :
    (type_assert obj t reason ≠ none ↔
      (obj.reference_p = true ∧ obj.type_id ≠ t) ∨
      (t = FixnumType ∧ obj.fixnum_p = false)) ∧
    (∀ e, type_assert obj t reason = some e →
      e.expected = t ∧ e.object = obj ∧
      e.message = reason ++ ": " ++ obj.describe) := by
  have hiff := type_assert_cond_iff obj t
  by_cases hcond :
      ((obj.reference_p && obj.type_id != t) || (t == FixnumType && !obj.fixnum_p)) = true
  · constructor
    · simp only [type_assert, hcond, if_true, ne_eq, reduceCtorEq, not_false_iff, true_iff]
      exact hiff.mp hcond
    · intro e he
      simp only [type_assert, hcond, if_true, Option.some.injEq] at he
      subst he
      exact ⟨rfl, rfl, rfl⟩
  · rw [Bool.not_eq_true] at hcond
    constructor
    · simp only [type_assert, hcond, Bool.false_eq_true, if_false, ne_eq, not_true_eq_false,
        false_iff]
      intro hd
      have := hiff.mpr hd
      rw [hcond] at this
      exact Bool.false_ne_true this
    · intro e he
      simp [type_assert, hcond] at he

/-- C9 witness: a reference with tag 3 checked against expected tag 4
raises; a fixnum checked against `FixnumType` does not. -/
theorem type_assert_spec_witness :
    type_assert (RObject.reference 3) 4 "tuple" ≠ none ∧
    ((type_assert (RObject.fixnum 2) FixnumType "fix" ≠ none) → False) :=
  ⟨(type_assert_spec (RObject.reference 3) 4 "tuple").1.mpr (Or.inl ⟨rfl, by decide⟩),
   fun h =>
     ((type_assert_spec (RObject.fixnum 2) FixnumType "fix").1.mp h).elim
       (fun hc => absurd hc.1 (by decide))
       (fun hc => absurd hc.2 (by decide))⟩

/-- C10: a tuple request whose byte size exceeds the large-object
threshold makes `new_young_tuple_dirty` return null at once, with the
allocator state untouched — it is not routed to the mature heap. -/
theorem new_young_tuple_dirty_large_returns_null (vm : AllocVM) (fields : Nat)
    (h : vm.large_object_threshold < tuple_fields_offset + sizeof_object_ptr * fields) :
    new_young_tuple_dirty vm fields = (none, vm) := by
  simp [new_young_tuple_dirty, h]

/-- C10 witness: a threshold of 10 and zero fields (16 computed bytes)
returns null with the state unchanged. -/
theorem new_young_tuple_dirty_large_returns_null_witness :
    new_young_tuple_dirty
      { slab := { cursor := 0, limit := 64 }, young_cursor := 0, young_limit := 256,
        slab_size := 64, large_object_threshold := 10 } 0 =
      (none,
       { slab := { cursor := 0, limit := 64 }, young_cursor := 0, young_limit := 256,
         slab_size := 64, large_object_threshold := 10 }) :=
  new_young_tuple_dirty_large_returns_null _ 0 (by decide)

end Rubinius
